import Mathlib

/-!
Shallow embedding of the kratos device-side client (`kratos.go`) and of the
variant keepalive watchdog (`checkPing` of the second source file of the
package).  External collaborators (the websocket transport, the wrp codec,
`regexp.Compile`, `device.ParseID`, the HTTP client) appear as explicit
function parameters or as pre-decoded values; everything the package itself
computes is translated faithfully from the Go source.
-/

namespace Kratos

/-! ## Go standard-library fragments used by the source -/

/-- Go `strings.Replace(s, old, new, 1)` restricted to one replacement,
working over the character list of the string: the first occurrence of
`pat` is replaced by `rep`; if `pat` does not occur, the list is unchanged. -/
def replaceFirstL (pat rep : List Char) : List Char → List Char
  | [] => []
  | c :: rest =>
    if pat.isPrefixOf (c :: rest) then rep ++ (c :: rest).drop pat.length
    else c :: replaceFirstL pat rep rest

/-- Go `strings.Replace(s, pat, rep, 1)` on strings. -/
def stringsReplaceOne (s pat rep : String) : String :=
  String.mk (replaceFirstL pat.data rep.data s.data)

/-- Go `net/http.StatusText`: the canonical reason phrase for an HTTP status
code, the empty string for an unknown code (in particular for code `0`). -/
def statusText : Int → String
  | 100 => "Continue"
  | 101 => "Switching Protocols"
  | 102 => "Processing"
  | 103 => "Early Hints"
  | 200 => "OK"
  | 201 => "Created"
  | 202 => "Accepted"
  | 203 => "Non-Authoritative Information"
  | 204 => "No Content"
  | 205 => "Reset Content"
  | 206 => "Partial Content"
  | 207 => "Multi-Status"
  | 208 => "Already Reported"
  | 226 => "IM Used"
  | 300 => "Multiple Choices"
  | 301 => "Moved Permanently"
  | 302 => "Found"
  | 303 => "See Other"
  | 304 => "Not Modified"
  | 305 => "Use Proxy"
  | 307 => "Temporary Redirect"
  | 308 => "Permanent Redirect"
  | 400 => "Bad Request"
  | 401 => "Unauthorized"
  | 402 => "Payment Required"
  | 403 => "Forbidden"
  | 404 => "Not Found"
  | 405 => "Method Not Allowed"
  | 406 => "Not Acceptable"
  | 407 => "Proxy Authentication Required"
  | 408 => "Request Timeout"
  | 409 => "Conflict"
  | 410 => "Gone"
  | 411 => "Length Required"
  | 412 => "Precondition Failed"
  | 413 => "Request Entity Too Large"
  | 414 => "Request URI Too Long"
  | 415 => "Unsupported Media Type"
  | 416 => "Requested Range Not Satisfiable"
  | 417 => "Expectation Failed"
  | 418 => "I\x27m a teapot"
  | 421 => "Misdirected Request"
  | 422 => "Unprocessable Entity"
  | 423 => "Locked"
  | 424 => "Failed Dependency"
  | 425 => "Too Early"
  | 426 => "Upgrade Required"
  | 428 => "Precondition Required"
  | 429 => "Too Many Requests"
  | 431 => "Request Header Fields Too Large"
  | 451 => "Unavailable For Legal Reasons"
  | 500 => "Internal Server Error"
  | 501 => "Not Implemented"
  | 502 => "Bad Gateway"
  | 503 => "Service Unavailable"
  | 504 => "Gateway Timeout"
  | 505 => "HTTP Version Not Supported"
  | 506 => "Variant Also Negotiates"
  | 507 => "Insufficient Storage"
  | 508 => "Loop Detected"
  | 510 => "Not Extended"
  | 511 => "Network Authentication Required"
  | _ => ""

/-! ## Error taxonomy (`Message`, `Error`, `createError`) -/

/-- Source constant `StatusDeviceDisconnected int = 523`. -/
def StatusDeviceDisconnected : Int := 523

/-- Source constant `StatusDeviceTimeout int = 524`. -/
def StatusDeviceTimeout : Int := 524

/-- The source type `Message` (`{code int; message string}` decoded from a
JSON body); the zero value `{0, ""}` is what `json.Unmarshal` leaves in
place when the body is absent or unparseable. -/
structure KMessage where
  code : Int
  message : String
deriving DecidableEq, Repr

/-- The source type `Error` (`{Message; SubError}`); the sub-error is kept
as its message string. -/
structure KError where
  message : KMessage
  subError : String
deriving DecidableEq, Repr

/-- Source `createError(resp, err)`.  The JSON unmarshalling of the response
body is external (`encoding/json`); its outcome enters as `body`, with
`none` standing for an absent or unparseable body (the `Message` value then
stays at its zero value `{0, ""}`).  Note that the default branch of the
switch calls `http.StatusText(msg.Code)` on the code decoded from the body,
not on `resp.StatusCode`. -/
def createError (statusCode : Int) (body : Option KMessage) (subError : String) : KError :=
  let msg := body.getD ⟨0, ""⟩
  let msg :=
    if msg.message = "" then
      if statusCode = StatusDeviceDisconnected then
        { msg with message := "ErrorDeviceBusy" }
      else if statusCode = StatusDeviceTimeout then
        { msg with message := "ErrorTransactionsClosed/ErrorTransactionsAlreadyClosed/ErrorDeviceClosed" }
      else
        { msg with message := statusText msg.code }
    else msg
  ⟨msg, subError⟩

/-! ## Connection establishment (`createConnection`, `New`) -/

/-- The source type `clientHeader`. -/
structure ClientHeader where
  deviceName : String
  firmwareName : String
  modelName : String
  manufacturer : String
deriving DecidableEq, Repr

/-- The prior response `resp.Request.Response` (the response the HTTP layer
already followed transparently), reduced to the fields the source reads:
its status code and its `Location` header (`""` when absent). -/
structure PriorResp where
  statusCode : Int
  location : String
deriving DecidableEq, Repr

/-- The discovery response `resp`, reduced to the fields the source reads:
status code, `Location` header (`""` when absent), the JSON-decoded body
(`none` for absent/unparseable), and the optional prior response
`resp.Request.Response`. -/
structure DiscoveryResp where
  statusCode : Int
  location : String
  body : Option KMessage
  priorResp : Option PriorResp
deriving DecidableEq, Repr

/-- A network side effect performed by `createConnection`: the discovery
HTTP GET (with the headers set on the request object) or the websocket
dial (with the header set passed to `dialer.Dial`). -/
inductive NetAction where
  | httpGet (url : String) (headers : List (String × String))
  | wsDial (url : String) (headers : List (String × String))
deriving DecidableEq, Repr

/-- Errors surfaced by `createConnection` / `New`. -/
inductive KErr where
  | parseID (e : String)
  | certLoad (e : String)
  | httpDo (e : String)
  | petasosNil
  | dial (e : String)
  | server (e : KError)
  | compile (e : String)
deriving DecidableEq, Repr

instance {ε α : Type} [DecidableEq ε] [DecidableEq α] : DecidableEq (Except ε α) := fun a b =>
  match a, b with
  | .error x, .error y => decidable_of_iff (x = y) (by simp)
  | .error _, .ok _ => .isFalse (by simp)
  | .ok _, .error _ => .isFalse (by simp)
  | .ok x, .ok y => decidable_of_iff (x = y) (by simp)

/-- Result of `createConnection`: the returned value (`wsURL` on success)
together with the ordered trace of network actions that were performed. -/
structure ConnOutcome where
  result : Except KErr String
  trace : List NetAction
deriving DecidableEq, Repr

/-- Source `createConnection(headerInfo, httpURL, crtFile, keyFile)`.
External collaborators enter as parameters: `parseID` is
`device.ParseID`, `certLoad` is the outcome of `tls.LoadX509KeyPair`
(`none` when certificate or key path is empty, so that no TLS identity is
loaded), `respResult` is the outcome of `client.Do(req)`, and `dial` is
`dialer.Dial`.  The trace records the discovery GET (whose request only
ever receives the `X-Webpa-Device-Name` header via `req.Header.Set`) and
the websocket dial (which receives the four-entry `headers` set built at
the top of the function). -/
def createConnection (parseID : String → Except String Unit)
    (dial : String → List (String × String) → Except String Unit)
    (hdr : ClientHeader) (httpURL : String)
    (certLoad : Option (Except String Unit))
    (respResult : Except String DiscoveryResp) : ConnOutcome :=
  match parseID hdr.deviceName with
  | .error e => ⟨.error (.parseID e), []⟩
  | .ok _ =>
    let wsHeaders := [("X-Webpa-Device-Name", hdr.deviceName),
                      ("X-Webpa-Firmware-Name", hdr.firmwareName),
                      ("X-Webpa-Model-Name", hdr.modelName),
                      ("X-Webpa-Manufacturer", hdr.manufacturer)]
    match certLoad with
    | some (.error e) => ⟨.error (.certLoad e), []⟩
    | _ =>
      let getHeaders := [("X-Webpa-Device-Name", hdr.deviceName)]
      match respResult with
      | .error e => ⟨.error (.httpDo e), [.httpGet httpURL getHeaders]⟩
      | .ok resp =>
        match resp.priorResp with
        | none => ⟨.error .petasosNil, [.httpGet httpURL getHeaders]⟩
        | some prior =>
          if resp.statusCode = 307 ∨ prior.statusCode = 307 then
            let location := if resp.location ≠ "" then resp.location else prior.location
            let wsURL := stringsReplaceOne location "http" "ws" ++ "/api/v2/device"
            match dial wsURL wsHeaders with
            | .error e => ⟨.error (.dial e), [.httpGet httpURL getHeaders, .wsDial wsURL wsHeaders]⟩
            | .ok _ => ⟨.ok wsURL, [.httpGet httpURL getHeaders, .wsDial wsURL wsHeaders]⟩
          else
            ⟨.error (.server (createError resp.statusCode resp.body
                "Received invalid response from petasos!")),
             [.httpGet httpURL getHeaders]⟩

/-- The client value built by `New`, reduced to the field the claims read:
`hostname` is assigned `connectionURL` unchanged (the string-manipulation
line that once stripped scheme and port is commented out in the source). -/
structure ClientModel where
  hostname : String
deriving DecidableEq, Repr

/-- Source `client.Hostname()`. -/
def Hostname (c : ClientModel) : String := c.hostname

/-- The regex-compilation loop of `New`: `regexp.Compile` is external and
enters as `compile`; the loop stops at the first pattern that fails to
compile and `New` returns that error. -/
def compileHandlers (compile : String → Except String Unit) : List String → Option String
  | [] => none
  | k :: ks =>
    match compile k with
    | .error e => some e
    | .ok _ => compileHandlers compile ks

/-- Result of `New`: the returned value together with whether the websocket
transport had been opened by the time `New` returned. -/
structure NewOutcome where
  result : Except KErr ClientModel
  transportOpened : Bool
deriving DecidableEq, Repr

/-- Source `ClientFactory.New()`, at the granularity the claims need:
`createConnection` runs first (its outcome is `connOut`; the transport is
open exactly when it succeeded), the client value is built with
`hostname := connectionURL`, and only then is each handler pattern
compiled, returning the first compile error. -/
def NewModel (compile : String → Except String Unit)
    (connOut : ConnOutcome) (handlerKeys : List String) : NewOutcome :=
  match connOut.result with
  | .error e => ⟨.error e, false⟩
  | .ok wsURL =>
    match compileHandlers compile handlerKeys with
    | some e => ⟨.error (.compile e), true⟩
    | none => ⟨.ok ⟨wsURL⟩, true⟩

/-! ## Read loop dispatch (`client.read`) -/

/-- The decoded wrp envelope (`wrp.Message`), reduced to the fields the
dispatch loop uses: `destination` is matched against each handler's
compiled pattern, and the whole value is passed to each invoked handler. -/
structure WrpMessage where
  source : String
  destination : String
  transactionUUID : String
  payload : List Nat
deriving DecidableEq, Repr

/-- A `HandlerRegistry` entry: the pattern string and its compiled matcher
(`keyRegex.MatchString`, external `regexp`, entering as a boolean
function). -/
structure HandlerRegistry where
  handlerKey : String
  keyRegex : String → Bool

/-- The dispatch `for` loop of `client.read`, from index `i`: every handler
whose matcher accepts the destination is invoked, and an invocation is
recorded as the pair (handler index, message value passed to
`HandleMessage`). -/
def dispatchFrom (i : Nat) (hs : List HandlerRegistry) (m : WrpMessage) :
    List (Nat × WrpMessage) :=
  match hs with
  | [] => []
  | h :: rest =>
    if h.keyRegex m.destination then (i, m) :: dispatchFrom (i + 1) rest m
    else dispatchFrom (i + 1) rest m

/-- The dispatch step of `client.read` for one decoded message: the ordered
trace of handler invocations. -/
def readDispatch (handlers : List HandlerRegistry) (m : WrpMessage) :
    List (Nat × WrpMessage) :=
  dispatchFrom 0 handlers m

/-! ## Send path (`client.Send`) -/

/-- Source `client.Send(message)`: encode via the external wrp codec
(`encode`), and only when encoding succeeds perform exactly one write of
the encoded buffer (`write` is `connection.WriteMessage`, returning `none`
on success).  The second component is the list of frames actually written
to the transport. -/
def Send {α E : Type} (encode : α → Except E (List Nat))
    (write : List Nat → Option E) (message : α) : Option E × List (List Nat) :=
  match encode message with
  | .error e => (some e, [])
  | .ok buffer => (write buffer, [buffer])

/-! ## Keepalive watchdog (`checkPing` of the miss-callback variant) -/

/-- An event the watchdog's `select` can wake on: a stop request, the ping
timer firing after a full period without acknowledgment, or an
acknowledgment notification (`pinged` channel). -/
inductive PingEvent where
  | stop
  | timerFire
  | pinged
deriving DecidableEq, Repr

/-- Watchdog loop state: `pingMiss` is the loop's exit flag (`for !pingMiss`). -/
structure PingState where
  pingMiss : Bool
deriving DecidableEq, Repr

/-- An observable effect of one loop iteration: invoking the caller's
miss callback, or stopping/draining and resetting the period timer. -/
inductive PingEffect where
  | callMissHandler
  | resetTimer
  | logStop
deriving BEq, DecidableEq, Repr

/-- One iteration of the `select` loop of `checkPing`: a stop request sets
the exit flag; a timer fire invokes the miss callback (its error is only
logged) and leaves the loop running; an acknowledgment drains and resets
the timer for a fresh period. -/
def checkPingStep (e : PingEvent) (s : PingState) : PingState × List PingEffect :=
  match e with
  | .stop => ({ s with pingMiss := true }, [.logStop])
  | .timerFire => (s, [.callMissHandler])
  | .pinged => (s, [.resetTimer])

/-- The `checkPing` loop over a sequence of wake-up events: iterates
`checkPingStep` while the exit flag is unset, accumulating effects. -/
def checkPingRun (events : List PingEvent) (s : PingState) :
    PingState × List PingEffect :=
  match events with
  | [] => (s, [])
  | e :: es =>
    if s.pingMiss then (s, [])
    else
      let step := checkPingStep e s
      let rest := checkPingRun es step.1
      (rest.1, step.2 ++ rest.2)

/-! ## Close and the one-shot stop channel -/

/-- Lifecycle of the watchdog goroutine with respect to its `stop` channel:
while running it is receiving on the unbuffered channel; on any exit its
deferred `close(pmh.stop)` has run, leaving the channel closed. -/
inductive WatchdogState where
  | running
  | exited
deriving DecidableEq, Repr

/-- What a Go channel send `pmh.stop <- true` does in each lifecycle state:
delivered to the receiving watchdog while it runs, or a run-time panic
once the channel has been closed by the watchdog's deferred close. -/
inductive ChanSendResult where
  | delivered
  | panicSendOnClosed
deriving DecidableEq, Repr

/-- Source `pingHandler.stopPingHandler()` (the body of `client.Close`):
a bare send on the one-shot `stop` channel.  While the watchdog runs, the
send is received, the watchdog returns, and its deferred `close(pmh.stop)`
leaves the channel closed; once the watchdog has exited (stop already
delivered, or a probe write failure), the channel is closed and the send
panics. -/
def stopPingHandler (w : WatchdogState) : ChanSendResult × WatchdogState :=
  match w with
  | .running => (.delivered, .exited)
  | .exited => (.panicSendOnClosed, .exited)

/-- Source `client.Close()`: logs, then calls `stopPingHandler`. -/
def CloseClient (w : WatchdogState) : ChanSendResult × WatchdogState :=
  stopPingHandler w

/-- The watchdog's exit on a probe write failure (`WriteMessage` of the
ping frame returns an error): the loop returns and the deferred
`close(pmh.stop)` runs, leaving the channel closed. -/
def probeWriteFailureExit (_w : WatchdogState) : WatchdogState :=
  .exited

/-! ## Helper lemmas -/

lemma replaceFirstL_http (l : List Char) :
    replaceFirstL (String.data "http") (String.data "ws") (String.data "http" ++ l)
      = String.data "ws" ++ l := by
  have hp : String.data "http" = ['h', 't', 't', 'p'] := rfl
  have hw : String.data "ws" = ['w', 's'] := rfl
  rw [hp, hw]
  simp [replaceFirstL, List.isPrefixOf]

lemma stringsReplaceOne_http (t : String) :
    stringsReplaceOne ("http://" ++ t) "http" "ws" = "ws://" ++ t := by
  have h1 : ("http://" ++ t).data = String.data "http" ++ ([':', '/', '/'] ++ t.data) := by
    simp [String.data_append]
  have h2 : ("ws://" ++ t).data = String.data "ws" ++ ([':', '/', '/'] ++ t.data) := by
    simp [String.data_append]
  apply String.ext
  rw [stringsReplaceOne, h1, replaceFirstL_http, h2]

lemma http_append_ne_empty (t : String) : ("http://" ++ t) ≠ "" := by
  intro h
  have h2 := congrArg String.data h
  simp [String.data_append] at h2

/-! ## Concrete fixtures -/

/-- A `device.ParseID` stand-in that accepts every device name. -/
def parseOkFn : String → Except String Unit := fun _ => .ok ()

/-- A `device.ParseID` stand-in that rejects every device name. -/
def parseFailFn : String → Except String Unit :=
  fun _ => .error "unrecognized device id"

/-- A `dialer.Dial` stand-in that always succeeds. -/
def dialOkFn : String → List (String × String) → Except String Unit :=
  fun _ _ => .ok ()

/-- A `regexp.Compile` stand-in that accepts every pattern. -/
def compileOkFn : String → Except String Unit := fun _ => .ok ()

/-- A `regexp.Compile` stand-in that rejects the pattern `"("` the way Go
rejects an unclosed group. -/
def compileFailFn : String → Except String Unit :=
  fun p => if p = "(" then .error "error parsing regexp: missing closing )" else .ok ()

/-- A concrete identity header set. -/
def hdrEx : ClientHeader := ⟨"mac:112233445566", "fw", "model", "manu"⟩

/-- A discovery response: direct status 307, `Location: http://host:1234/path`,
no body, with a (non-redirect) prior response present. -/
def respRedirect : DiscoveryResp := ⟨307, "http://host:1234/path", none, some ⟨200, ""⟩⟩

/-- The outcome of `createConnection` on `respRedirect`. -/
def outRedirect : ConnOutcome :=
  createConnection parseOkFn dialOkFn hdrEx "http://petasos" none (.ok respRedirect)

/-- A discovery response: direct status 307 with a `Location` header but no
prior response (`resp.Request.Response == nil`). -/
def respDirect307NoPrior : DiscoveryResp := ⟨307, "http://host:1234/path", none, none⟩

/-- The outcome of `createConnection` on `respDirect307NoPrior`. -/
def outDirect307NoPrior : ConnOutcome :=
  createConnection parseOkFn dialOkFn hdrEx "http://petasos" none (.ok respDirect307NoPrior)

/-- Whether a header list carries an entry under the given header name. -/
def headersHaveKey (hs : List (String × String)) (k : String) : Bool :=
  hs.any (fun p => p.1 == k)

/-! ## Claim C1 -/

/-- Claim C1, counterexample: with a direct 307 discovery response carrying
`Location: http://host:1234/path`, the resolved connect URL is indeed
`ws://host:1234/path/api/v2/device`, but the client built by `New` exposes
that full URL as its hostname — `Hostname()` does not return the bare
`host` the claim asserts (the stripping line is commented out in the
source). -/
theorem C1_counterexample :
    (NewModel compileOkFn outRedirect []).result =
      .ok ⟨"ws://host:1234/path/api/v2/device"⟩ ∧
    Hostname ⟨"ws://host:1234/path/api/v2/device"⟩ ≠ "host" := by
  exact ⟨by decide, by decide⟩

/-- Claim C1 (amended): for a discovery handshake yielding a status-307
response (with a non-nil prior-response reference) whose `Location` header
is `http://` followed by anything, the final connect URL is the location
with its scheme rewritten to `ws` and the fixed suffix `/api/v2/device`
appended, and `Hostname()` on the resulting client returns that entire
connect URL — scheme, port delimiter, path and suffix included — not the
stripped host portion. -/
theorem C1_amended (parseID : String → Except String Unit)
    (dial : String → List (String × String) → Except String Unit)
    (compile : String → Except String Unit)
    (hdr : ClientHeader) (httpURL t : String)
    (body : Option KMessage) (prior : PriorResp) (keys : List String)
    (hparse : parseID hdr.deviceName = .ok ())
    (hdial : ∀ u hs, dial u hs = .ok ()) :
    (createConnection parseID dial hdr httpURL none
        (.ok ⟨307, "http://" ++ t, body, some prior⟩)).result =
      .ok ("ws://" ++ t ++ "/api/v2/device") ∧
    (∀ c, (NewModel compile (createConnection parseID dial hdr httpURL none
        (.ok ⟨307, "http://" ++ t, body, some prior⟩)) keys).result = .ok c →
      Hostname c = "ws://" ++ t ++ "/api/v2/device") := by
  have hres : (createConnection parseID dial hdr httpURL none
      (.ok ⟨307, "http://" ++ t, body, some prior⟩)).result =
      .ok ("ws://" ++ t ++ "/api/v2/device") := by
    simp only [createConnection, hparse, hdial]
    rw [if_pos (Or.inl trivial)]
    simp only [if_pos (http_append_ne_empty t), stringsReplaceOne_http]
  refine ⟨hres, ?_⟩
  intro c hc
  rw [NewModel, hres] at hc
  rcases hk : compileHandlers compile keys with _ | e <;> rw [hk] at hc
  · simp only [Except.ok.injEq] at hc
    rw [← hc, Hostname]
  · exact absurd hc (by simp)

/-- Claim C1 witness. -/
theorem C1_witness :
    (createConnection parseOkFn dialOkFn hdrEx "http://petasos" none
        (.ok ⟨307, "http://" ++ "host:1234/path", none, some ⟨200, ""⟩⟩)).result =
      .ok ("ws://" ++ "host:1234/path" ++ "/api/v2/device") :=
  (C1_amended parseOkFn dialOkFn compileOkFn hdrEx "http://petasos" "host:1234/path"
    none ⟨200, ""⟩ [] rfl (fun _ _ => rfl)).1

/-! ## Claim C2 -/

/-- Claim C2, counterexample: a direct status-307 discovery response with a
`Location` header but a nil prior-response reference does NOT proceed to
the transport dial — `createConnection` fails with the fixed
"Petasos response is nil!" error before even looking at the status code,
and the trace contains no dial. -/
theorem C2_counterexample :
    outDirect307NoPrior.result = .error .petasosNil ∧
    outDirect307NoPrior.trace =
      [.httpGet "http://petasos" [("X-Webpa-Device-Name", "mac:112233445566")]] := by
  exact ⟨by decide, by decide⟩

/-- Claim C2 (amended): connection establishment accepts a temporary
redirect either directly or nested one level inside the prior-response
reference, and takes the `Location` header of the discovery response when
non-empty, otherwise of the prior response — but only provided the
prior-response reference is non-nil.  When the prior-response reference is
nil, establishment fails ("Petasos response is nil!") without dialing,
even if the discovery response itself has status 307. -/
theorem C2_amended (parseID : String → Except String Unit)
    (dial : String → List (String × String) → Except String Unit)
    (hdr : ClientHeader) (httpURL : String) (resp : DiscoveryResp)
    (hparse : parseID hdr.deviceName = .ok ()) :
    (∀ prior, resp.priorResp = some prior →
      (resp.statusCode = 307 ∨ prior.statusCode = 307) →
      (createConnection parseID dial hdr httpURL none (.ok resp)).trace =
        [.httpGet httpURL [("X-Webpa-Device-Name", hdr.deviceName)],
         .wsDial (stringsReplaceOne
             (if resp.location ≠ "" then resp.location else prior.location) "http" "ws"
             ++ "/api/v2/device")
           [("X-Webpa-Device-Name", hdr.deviceName),
            ("X-Webpa-Firmware-Name", hdr.firmwareName),
            ("X-Webpa-Model-Name", hdr.modelName),
            ("X-Webpa-Manufacturer", hdr.manufacturer)]]) ∧
    (resp.priorResp = none →
      (createConnection parseID dial hdr httpURL none (.ok resp)).result =
        .error .petasosNil ∧
      (createConnection parseID dial hdr httpURL none (.ok resp)).trace =
        [.httpGet httpURL [("X-Webpa-Device-Name", hdr.deviceName)]]) := by
  constructor
  · intro prior hprior h307
    simp only [createConnection, hparse, hprior]
    rw [if_pos h307]
    rcases dial _ _ with e | u <;> rfl
  · intro hnone
    simp [createConnection, hparse, hnone]

/-- Claim C2 witness. -/
theorem C2_witness :
    (createConnection parseOkFn dialOkFn hdrEx "http://petasos" none
        (.ok respRedirect)).trace =
      [.httpGet "http://petasos" [("X-Webpa-Device-Name", "mac:112233445566")],
       .wsDial (stringsReplaceOne
           (if respRedirect.location ≠ "" then respRedirect.location
            else (⟨200, ""⟩ : PriorResp).location) "http" "ws" ++ "/api/v2/device")
         [("X-Webpa-Device-Name", "mac:112233445566"),
          ("X-Webpa-Firmware-Name", "fw"),
          ("X-Webpa-Model-Name", "model"),
          ("X-Webpa-Manufacturer", "manu")]] :=
  (C2_amended parseOkFn dialOkFn hdrEx "http://petasos" respRedirect rfl).1
    ⟨200, ""⟩ rfl (Or.inl rfl)

/-! ## Claim C3 -/

/-- Claim C3, counterexample: for a non-redirect discovery response with
status 404 and an absent body, the constructed error's message is the
empty string (`http.StatusText` is applied to the body's zero-valued
`code` field, not to the response's status), not the generic reason
phrase "Not Found" for status 404 that the claim asserts. -/
theorem C3_counterexample :
    (createError 404 none "Received invalid response from petasos!").message.message = "" ∧
    statusText 404 = "Not Found" ∧
    ("" : String) ≠ "Not Found" := by
  exact ⟨by decide, by decide, by decide⟩

/-- Claim C3 (amended): for every non-redirect discovery response, the
constructed error's message equals the `message` field of the JSON body
when that parses non-empty; otherwise it is the fixed device-busy string
for status 523 and the fixed transactions-closed string for status 524;
for any other status it is the generic reason phrase for the `code` field
parsed from the JSON body — which is 0, yielding the empty string, when
the body is absent or unparseable — not for the response's status code. -/
theorem C3_amended :
    (∀ (sc : Int) (m : KMessage) (sub : String), m.message ≠ "" →
      (createError sc (some m) sub).message = m) ∧
    (∀ (sc : Int) (body : Option KMessage) (sub : String),
      (body.getD ⟨0, ""⟩).message = "" →
      ((sc = 523 →
         (createError sc body sub).message.message = "ErrorDeviceBusy") ∧
       (sc = 524 →
         (createError sc body sub).message.message =
           "ErrorTransactionsClosed/ErrorTransactionsAlreadyClosed/ErrorDeviceClosed") ∧
       (sc ≠ 523 → sc ≠ 524 →
         (createError sc body sub).message.message =
           statusText (body.getD ⟨0, ""⟩).code))) := by
  constructor
  · intro sc m sub h
    simp [createError, h]
  · intro sc body sub h
    refine ⟨?_, ?_, ?_⟩
    · intro h523
      simp [createError, h, h523, StatusDeviceDisconnected]
    · intro h524
      have : ¬ (524 : Int) = 523 := by decide
      simp [createError, h, h524, StatusDeviceDisconnected, StatusDeviceTimeout, this]
    · intro h523 h524
      simp [createError, h, StatusDeviceDisconnected, StatusDeviceTimeout, h523, h524]

/-- Claim C3 witness. -/
theorem C3_witness :
    (createError 400 (some ⟨404, "not found"⟩) "sub").message = ⟨404, "not found"⟩ ∧
    (createError 523 none "sub").message.message = "ErrorDeviceBusy" ∧
    (createError 524 none "sub").message.message =
      "ErrorTransactionsClosed/ErrorTransactionsAlreadyClosed/ErrorDeviceClosed" ∧
    (createError 404 (some ⟨404, ""⟩) "sub").message.message = statusText 404 :=
  ⟨C3_amended.1 400 ⟨404, "not found"⟩ "sub" (by decide),
   (C3_amended.2 523 none "sub" (by decide)).1 rfl,
   (C3_amended.2 524 none "sub" (by decide)).2.1 rfl,
   (C3_amended.2 404 (some ⟨404, ""⟩) "sub" (by decide)).2.2 (by decide) (by decide)⟩

/-! ## Claim C4 -/

lemma dispatchFrom_eq_enumFrom (m : WrpMessage) (hs : List HandlerRegistry) (i : Nat) :
    dispatchFrom i hs m =
      ((List.enumFrom i hs).filter (fun p => p.2.keyRegex m.destination)).map
        (fun p => (p.1, m)) := by
  induction hs generalizing i with
  | nil => rfl
  | cons h rest ih =>
    simp only [dispatchFrom, List.enumFrom, List.filter_cons]
    by_cases hc : h.keyRegex m.destination
    · simp [hc, ih]
    · simp [hc, ih]

lemma dispatchFrom_fst_le (m : WrpMessage) (hs : List HandlerRegistry) (i : Nat) :
    ∀ p ∈ dispatchFrom i hs m, i ≤ p.1 := by
  induction hs generalizing i with
  | nil => simp [dispatchFrom]
  | cons h rest ih =>
    intro p hp
    simp only [dispatchFrom] at hp
    by_cases hc : h.keyRegex m.destination
    · rw [if_pos hc] at hp
      rcases List.mem_cons.mp hp with hh | hh
      · subst hh; exact Nat.le_refl i
      · exact Nat.le_trans (Nat.le_succ i) (ih (i + 1) p hh)
    · rw [if_neg hc] at hp
      exact Nat.le_trans (Nat.le_succ i) (ih (i + 1) p hp)

lemma dispatchFrom_length (m : WrpMessage) (hs : List HandlerRegistry) (i : Nat) :
    (dispatchFrom i hs m).length =
      (hs.filter (fun h => h.keyRegex m.destination)).length := by
  induction hs generalizing i with
  | nil => rfl
  | cons h rest ih =>
    simp only [dispatchFrom, List.filter_cons]
    by_cases hc : h.keyRegex m.destination
    · simp [hc, ih]
    · simp [hc, ih]

lemma dispatchFrom_pairwise (m : WrpMessage) (hs : List HandlerRegistry) (i : Nat) :
    ((dispatchFrom i hs m).map Prod.fst).Pairwise (· < ·) := by
  induction hs generalizing i with
  | nil => simp [dispatchFrom]
  | cons h rest ih =>
    simp only [dispatchFrom]
    by_cases hc : h.keyRegex m.destination
    · rw [if_pos hc, List.map_cons]
      refine List.Pairwise.cons ?_ (ih (i + 1))
      intro b hb
      rcases List.mem_map.mp hb with ⟨p, hp, rfl⟩
      exact Nat.lt_of_succ_le (dispatchFrom_fst_le m rest (i + 1) p hp)
    · rw [if_neg hc]
      exact ih (i + 1)

/-- Claim C4: for every decoded message, the read loop's dispatch invokes
exactly the handlers whose compiled matcher accepts the destination — the
invocation trace is the enumerate-filter of the registration list (every
matching registration, not only the first), its length is the number of
matching registrations, every invocation receives the same decoded
message value, and the invoked indices are strictly increasing, i.e. in
registration order. -/
theorem C4_dispatch_fanout (handlers : List HandlerRegistry) (m : WrpMessage) :
    readDispatch handlers m =
      ((handlers.enum.filter (fun p => p.2.keyRegex m.destination)).map
        (fun p => (p.1, m))) ∧
    (readDispatch handlers m).length =
      (handlers.filter (fun h => h.keyRegex m.destination)).length ∧
    (∀ p ∈ readDispatch handlers m, p.2 = m) ∧
    ((readDispatch handlers m).map Prod.fst).Pairwise (· < ·) := by
  refine ⟨?_, ?_, ?_, ?_⟩
  · rw [readDispatch, dispatchFrom_eq_enumFrom, List.enum]
  · exact dispatchFrom_length m handlers 0
  · intro p hp
    rw [readDispatch, dispatchFrom_eq_enumFrom] at hp
    rcases List.mem_map.mp hp with ⟨q, _, rfl⟩
    rfl
  · exact dispatchFrom_pairwise m handlers 0

/-! ## Claim C5 -/

lemma checkPingRun_noStop (events : List PingEvent) (h : PingEvent.stop ∉ events) :
    (checkPingRun events ⟨false⟩).2.count .callMissHandler =
      events.count .timerFire ∧
    (checkPingRun events ⟨false⟩).1.pingMiss = false := by
  induction events with
  | nil => simp [checkPingRun]
  | cons e es ih =>
    have hes : PingEvent.stop ∉ es := fun hh => h (List.mem_cons_of_mem _ hh)
    have he : e ≠ PingEvent.stop := fun hh => h (hh ▸ List.mem_cons_self e es)
    rcases ih hes with ⟨ih1, ih2⟩
    cases e with
    | stop => exact absurd rfl he
    | timerFire =>
      simp [checkPingRun, checkPingStep, List.count_cons, List.count_append, ih1, ih2]
      decide
    | pinged =>
      simp [checkPingRun, checkPingStep, List.count_cons, List.count_append, ih1, ih2]
      decide

/-- Claim C5: in the watchdog loop, a full period elapsing with no
acknowledgment (a timer-fire wake-up) invokes the caller-supplied miss
callback exactly once for that period and leaves the loop state unchanged
— in particular it does not set the exit flag, so a miss by itself does
not close the client; an acknowledgment notification arriving instead
drains and resets the period timer (extending the deadline) and fires no
miss callback; and over any event sequence containing no stop request the
number of miss-callback invocations is exactly the number of elapsed
unacknowledged periods, with the loop still running at the end. -/
theorem C5_watchdog_miss (events : List PingEvent)
    (h : PingEvent.stop ∉ events) :
    (checkPingRun events ⟨false⟩).2.count .callMissHandler =
      events.count .timerFire ∧
    (checkPingRun events ⟨false⟩).1.pingMiss = false ∧
    (∀ s, (checkPingStep .timerFire s).2.count .callMissHandler = 1 ∧
          (checkPingStep .timerFire s).1 = s) ∧
    (∀ s, (checkPingStep .pinged s).2 = [.resetTimer] ∧
          (checkPingStep .pinged s).2.count .callMissHandler = 0) := by
  refine ⟨(checkPingRun_noStop events h).1, (checkPingRun_noStop events h).2, ?_, ?_⟩
  · intro s
    exact ⟨rfl, rfl⟩
  · intro s
    exact ⟨rfl, rfl⟩

/-- Claim C5 witness: a period elapses unacknowledged, an acknowledgment
arrives, then another period elapses — two miss-callback invocations, and
the loop is still running. -/
theorem C5_witness :
    (checkPingRun [.timerFire, .pinged, .timerFire] ⟨false⟩).2.count
        PingEffect.callMissHandler = 2 ∧
    (checkPingRun [.timerFire, .pinged, .timerFire] ⟨false⟩).1.pingMiss = false :=
  ⟨(C5_watchdog_miss [.timerFire, .pinged, .timerFire] (by decide)).1,
   (C5_watchdog_miss [.timerFire, .pinged, .timerFire] (by decide)).2.1⟩

/-! ## Claim C6 -/

/-- Claim C6: `Send` first encodes the outbound message; only if encoding
succeeds is the encoded buffer written to the transport as one frame in
one synchronous write; if encoding fails, the encode error is returned
and no write is attempted, so the encode error takes precedence over any
write error. -/
theorem C6_send_encode_first {α E : Type} (encode : α → Except E (List Nat))
    (write : List Nat → Option E) (message : α) :
    (∀ e, encode message = .error e →
      Send encode write message = (some e, [])) ∧
    (∀ b, encode message = .ok b →
      Send encode write message = (write b, [b])) := by
  constructor <;> intro x hx <;> simp [Send, hx]

/-- An encoder stand-in that always fails. -/
def encodeFailFn : Nat → Except String (List Nat) := fun _ => .error "encode failed"

/-- An encoder stand-in that always succeeds with a one-byte frame. -/
def encodeOkFn : Nat → Except String (List Nat) := fun n => .ok [n]

/-- A transport write stand-in that always succeeds. -/
def writeOkFn : List Nat → Option String := fun _ => none

/-- Claim C6 witness. -/
theorem C6_witness :
    Send encodeFailFn writeOkFn 7 = (some "encode failed", []) ∧
    Send encodeOkFn writeOkFn 7 = (none, [[7]]) :=
  ⟨(C6_send_encode_first encodeFailFn writeOkFn 7).1 "encode failed" rfl,
   (C6_send_encode_first encodeOkFn writeOkFn 7).2 [7] rfl⟩

/-! ## Claim C7 -/

/-- Claim C7, counterexample: with a successful discovery handshake and the
non-compiling handler pattern `"("`, `New` does return the compile error —
but the transport has already been opened by then (`createConnection` runs
before the pattern-compilation loop), contradicting the claim that no
Transport is opened. -/
theorem C7_counterexample :
    (NewModel compileFailFn outRedirect ["("]).result =
      .error (.compile "error parsing regexp: missing closing )") ∧
    (NewModel compileFailFn outRedirect ["("]).transportOpened = true := by
  exact ⟨by decide, by decide⟩

/-- Claim C7 (amended): for every configuration containing a handler
pattern that fails to compile, construction returns the compile error —
but the websocket transport has already been opened at that point, because
`New` establishes the connection before compiling any handler pattern, and
the failure path does not close it. -/
theorem C7_amended (compile : String → Except String Unit)
    (connOut : ConnOutcome) (keys : List String) (e : String) (wsURL : String)
    (hconn : connOut.result = .ok wsURL)
    (hcompile : compileHandlers compile keys = some e) :
    (NewModel compile connOut keys).result = .error (.compile e) ∧
    (NewModel compile connOut keys).transportOpened = true := by
  simp [NewModel, hconn, hcompile]

/-- Claim C7 witness. -/
theorem C7_witness :
    (NewModel compileFailFn outRedirect ["(", ".*"]).result =
      .error (.compile "error parsing regexp: missing closing )") ∧
    (NewModel compileFailFn outRedirect ["(", ".*"]).transportOpened = true :=
  C7_amended compileFailFn outRedirect ["(", ".*"]
    "error parsing regexp: missing closing )" "ws://host:1234/path/api/v2/device"
    (by decide) (by decide)

/-! ## Claim C8 -/

/-- Claim C8: for every device name the identifier validation rejects,
`createConnection` returns the validation error with an empty network
trace — no HTTP request and no transport dial occur; this holds whatever
the certificate configuration and whatever the network would answer. -/
theorem C8_validate_before_network (parseID : String → Except String Unit)
    (dial : String → List (String × String) → Except String Unit)
    (hdr : ClientHeader) (httpURL : String)
    (certLoad : Option (Except String Unit))
    (respResult : Except String DiscoveryResp) (e : String)
    (h : parseID hdr.deviceName = .error e) :
    createConnection parseID dial hdr httpURL certLoad respResult =
      ⟨.error (.parseID e), []⟩ := by
  simp [createConnection, h]

/-- Claim C8 witness. -/
theorem C8_witness :
    createConnection parseFailFn dialOkFn hdrEx "http://petasos" none
        (.ok respRedirect) =
      ⟨.error (.parseID "unrecognized device id"), []⟩ :=
  C8_validate_before_network parseFailFn dialOkFn hdrEx "http://petasos" none
    (.ok respRedirect) "unrecognized device id" rfl

/-! ## Claim C9 -/

/-- Claim C9, counterexample: on a successful handshake the discovery GET
request carries only the `X-Webpa-Device-Name` header (set on the request
object by `req.Header.Set`); the firmware-name header is absent from it —
the four-entry identity header set is passed to the websocket dial
instead, contradicting the claim that the GET carries all four. -/
theorem C9_counterexample :
    outRedirect.trace =
      [.httpGet "http://petasos" [("X-Webpa-Device-Name", "mac:112233445566")],
       .wsDial "ws://host:1234/path/api/v2/device"
         [("X-Webpa-Device-Name", "mac:112233445566"),
          ("X-Webpa-Firmware-Name", "fw"),
          ("X-Webpa-Model-Name", "model"),
          ("X-Webpa-Manufacturer", "manu")]] ∧
    headersHaveKey [("X-Webpa-Device-Name", "mac:112233445566")]
      "X-Webpa-Firmware-Name" = false := by
  exact ⟨by decide, by decide⟩

/-- Claim C9 (amended): the discovery HTTP GET carries exactly one identity
header, `X-Webpa-Device-Name`; the full four-header identity set —
`X-Webpa-Device-Name`, `X-Webpa-Firmware-Name`, `X-Webpa-Model-Name`,
`X-Webpa-Manufacturer` — is presented on the websocket dial, not on the
discovery request. -/
theorem C9_amended (parseID : String → Except String Unit)
    (dial : String → List (String × String) → Except String Unit)
    (hdr : ClientHeader) (httpURL : String) (resp : DiscoveryResp)
    (prior : PriorResp)
    (hparse : parseID hdr.deviceName = .ok ())
    (hprior : resp.priorResp = some prior)
    (h307 : resp.statusCode = 307 ∨ prior.statusCode = 307) :
    (createConnection parseID dial hdr httpURL none (.ok resp)).trace.head? =
      some (.httpGet httpURL [("X-Webpa-Device-Name", hdr.deviceName)]) ∧
    (∀ u hs, NetAction.wsDial u hs ∈
        (createConnection parseID dial hdr httpURL none (.ok resp)).trace →
      hs = [("X-Webpa-Device-Name", hdr.deviceName),
            ("X-Webpa-Firmware-Name", hdr.firmwareName),
            ("X-Webpa-Model-Name", hdr.modelName),
            ("X-Webpa-Manufacturer", hdr.manufacturer)]) := by
  have htrace : (createConnection parseID dial hdr httpURL none (.ok resp)).trace =
      [.httpGet httpURL [("X-Webpa-Device-Name", hdr.deviceName)],
       .wsDial (stringsReplaceOne
           (if resp.location ≠ "" then resp.location else prior.location) "http" "ws"
           ++ "/api/v2/device")
         [("X-Webpa-Device-Name", hdr.deviceName),
          ("X-Webpa-Firmware-Name", hdr.firmwareName),
          ("X-Webpa-Model-Name", hdr.modelName),
          ("X-Webpa-Manufacturer", hdr.manufacturer)]] := by
    simp only [createConnection, hparse, hprior]
    rw [if_pos h307]
    rcases dial _ _ with e | u <;> rfl
  rw [htrace]
  refine ⟨rfl, ?_⟩
  intro u hs hmem
  rcases List.mem_cons.mp hmem with hh | hh
  · exact absurd hh (by simp)
  · rcases List.mem_cons.mp hh with hh2 | hh2
    · injection hh2.symm with h1 h2
      exact h2.symm
    · exact absurd hh2 (by simp)

/-- Claim C9 witness. -/
theorem C9_witness :
    (createConnection parseOkFn dialOkFn hdrEx "http://petasos" none
        (.ok respRedirect)).trace.head? =
      some (.httpGet "http://petasos" [("X-Webpa-Device-Name", "mac:112233445566")]) :=
  (C9_amended parseOkFn dialOkFn hdrEx "http://petasos" respRedirect ⟨200, ""⟩
    rfl rfl (Or.inl rfl)).1

/-! ## Claim C10 -/

/-- Claim C10: `Close` signals the watchdog by a bare send on the one-shot
`stop` channel, which the watchdog closes (via its deferred close) when it
exits; the first `Close` while the watchdog runs is delivered and leaves
the watchdog exited with the channel closed, so a second `Close`, or a
`Close` issued after the watchdog already terminated on a probe write
failure, performs a send on a closed channel — a run-time panic — instead
of returning ok. -/
theorem C10_close_at_most_once :
    CloseClient .running = (.delivered, .exited) ∧
    (CloseClient (CloseClient .running).2).1 = .panicSendOnClosed ∧
    (CloseClient (probeWriteFailureExit .running)).1 = .panicSendOnClosed := by
  exact ⟨rfl, rfl, rfl⟩

end Kratos
